import Mathlib

set_option maxRecDepth 100000

/-!
Verification development for the DEXON SQLVM expression checker
(type checking, type inference and constant folding over a SQL-like
expression AST). The checker itself (`checkExpr` and the per-operator
check functions) is translated directly from the Go source file
`checker.go`. Supporting types that live in sibling packages of the
repository (the `ast` data-type encoder, the three-valued `BoolValue`,
the constant-value abstraction, the type-action protocol and the two
digit-cap constants) are not part of the provided source; those are
modelled from the specification and are marked as such in their doc
comments.

Conventions of the shallow embedding:
- Go's arbitrary-precision decimals are embedded as `Rat`; the
  normalization step is a value-level identity.
- Go's in-place node mutation is embedded by returning updated nodes;
  each check function returns the (possibly new) node together with the
  list of diagnostics it appended, in appearance order.
- Diagnostic messages (plain strings in Go) are elided; the structured
  fields position, length, code and severity are kept.
- The recursive dispatcher `checkExpr` takes a fuel parameter; the Go
  recursion is bounded by the tree, so any sufficiently large fuel
  yields the behaviour of the source.
-/

namespace Checker

/-! ## Data type encoder -/

/-- Modelled from the spec (§3, §4.1): a data type decomposed into a
`(major, minor)` pair. The source packs the pair into an opaque 16-bit
ordinal; only `ComposeDataType`, `DecomposeDataType`, equality and the
derived queries are visible to the checker, so the pair itself is the
faithful value. -/
structure DataType where
  major : Nat
  minor : Nat
deriving DecidableEq, Repr

/-- Modelled from the spec: the pending (not yet determined) major. -/
def DataTypeMajorPending : Nat := 0

/-- Modelled from the spec: major of `Bool`. -/
def DataTypeMajorBool : Nat := 2

/-- Modelled from the spec: major of `Address`. -/
def DataTypeMajorAddress : Nat := 3

/-- Modelled from the spec: major of `Int`. -/
def DataTypeMajorInt : Nat := 4

/-- Modelled from the spec: major of `Uint`. -/
def DataTypeMajorUint : Nat := 5

/-- Modelled from the spec: major of fixed-size bytes. -/
def DataTypeMajorFixedBytes : Nat := 6

/-- Modelled from the spec: major of dynamically-sized bytes. -/
def DataTypeMajorDynamicBytes : Nat := 7

/-- Modelled from the spec (§3): `Fixed` majors occupy a 32-wide range,
the offset from the base encoding the byte width minus one. -/
def DataTypeMajorFixed : Nat := 16

/-- Modelled from the spec (§3): `Ufixed` majors occupy a 32-wide range
directly after the `Fixed` range. -/
def DataTypeMajorUfixed : Nat := 48

/-- Modelled from the spec: the minor used when the size parameter is
irrelevant. -/
def DataTypeMinorDontCare : Nat := 0

/-- Modelled from the spec: the `Pending` data type. -/
def DataTypePending : DataType := ⟨DataTypeMajorPending, DataTypeMinorDontCare⟩

/-- Modelled from the spec: the `Null` data type. -/
def DataTypeNull : DataType := ⟨1, 0⟩

/-- Modelled from the spec: the `Bad` type-error sentinel. -/
def DataTypeBad : DataType := ⟨1, 1⟩

/-- Modelled from the spec: `Pending.Pending() == true`, all concrete
types report `false`. -/
def DataType.isPending (dt : DataType) : Prop := dt.major = DataTypeMajorPending

instance (dt : DataType) : Decidable dt.isPending :=
  inferInstanceAs (Decidable (dt.major = DataTypeMajorPending))

/-- Modelled from the spec: membership of a major in the `Fixed` range. -/
def isFixedRange (m : Nat) : Prop := DataTypeMajorFixed ≤ m ∧ m ≤ DataTypeMajorFixed + 31

instance (m : Nat) : Decidable (isFixedRange m) :=
  inferInstanceAs (Decidable (_ ∧ _))

/-- Modelled from the spec: membership of a major in the `Ufixed` range. -/
def isUfixedRange (m : Nat) : Prop := DataTypeMajorUfixed ≤ m ∧ m ≤ DataTypeMajorUfixed + 31

instance (m : Nat) : Decidable (isUfixedRange m) :=
  inferInstanceAs (Decidable (_ ∧ _))

/-- Modelled from the spec (§3): `GetMinMax` returns the inclusive value
bounds of a bounded numeric type, or nothing for majors without bounds.
`Int`/`Uint` minors encode byte width minus one; fixed-point majors
encode the byte width in the major offset and the number of fractional
decimal digits in the minor. -/
def getMinMax (dt : DataType) : Option (Rat × Rat) :=
  if dt.major = DataTypeMajorInt then
    let bits := 8 * (dt.minor + 1)
    some (-(2 ^ (bits - 1) : Rat), (2 ^ (bits - 1) : Rat) - 1)
  else if dt.major = DataTypeMajorUint then
    let bits := 8 * (dt.minor + 1)
    some (0, (2 ^ bits : Rat) - 1)
  else if isFixedRange dt.major then
    let bits := 8 * (dt.major - DataTypeMajorFixed + 1)
    let scale : Rat := 10 ^ dt.minor
    some (-(2 ^ (bits - 1) : Rat) / scale, ((2 ^ (bits - 1) : Rat) - 1) / scale)
  else if isUfixedRange dt.major then
    let bits := 8 * (dt.major - DataTypeMajorUfixed + 1)
    let scale : Rat := 10 ^ dt.minor
    some (0, ((2 ^ bits : Rat) - 1) / scale)
  else
    none

/-- `mustGetMinMax` of the source aborts for unsupported majors; the
checker only reaches it for validated numeric types, so the fallback
value is unreachable. -/
def mustGetMinMax (dt : DataType) : Rat × Rat :=
  (getMinMax dt).getD (0, 0)

/-- Truncation of a rational toward zero, as decimal `Truncate(0)` and
the integral part taken by the encoder do. -/
def ratTrunc (q : Rat) : Int :=
  if q.num ≥ 0 then Int.ofNat (q.num.toNat / q.den) else -Int.ofNat ((-q.num).toNat / q.den)

/-- Two's-complement wrap of an integer into the signed range of the
given bit width. -/
def wrapSigned (bits : Nat) (x : Int) : Int :=
  (x + 2 ^ (bits - 1)) % (2 ^ bits : Int) - 2 ^ (bits - 1)

/-- Wrap of an integer into the unsigned range of the given bit width. -/
def wrapUnsigned (bits : Nat) (x : Int) : Int :=
  x % (2 ^ bits : Int)

/-- Modelled from the spec (§4.1): `cropDecimal` is the
`DecimalEncode`/`DecimalDecode` round trip, which truncates the value to
the type's fractional precision and wraps it into the type's
two's-complement range (spec scenario: `255 + 1` cropped to `uint8`
yields `0`). -/
def cropDecimal (dt : DataType) (v : Rat) : Rat :=
  if dt.major = DataTypeMajorInt then
    ((wrapSigned (8 * (dt.minor + 1)) (ratTrunc v) : Int) : Rat)
  else if dt.major = DataTypeMajorUint then
    ((wrapUnsigned (8 * (dt.minor + 1)) (ratTrunc v) : Int) : Rat)
  else if isFixedRange dt.major then
    let bits := 8 * (dt.major - DataTypeMajorFixed + 1)
    let scale : Rat := 10 ^ dt.minor
    ((wrapSigned bits (ratTrunc (v * scale)) : Int) : Rat) / scale
  else if isUfixedRange dt.major then
    let bits := 8 * (dt.major - DataTypeMajorUfixed + 1)
    let scale : Rat := 10 ^ dt.minor
    ((wrapUnsigned bits (ratTrunc (v * scale)) : Int) : Rat) / scale
  else
    v

/-- Big-endian byte list of the given length for a natural number. -/
def natToBytesBE : Nat → Nat → List Nat
  | 0, _ => []
  | len + 1, x => natToBytesBE len (x / 256) ++ [x % 256]

/-- Modelled from the spec (§4.1): `DecimalEncode` to a fixed-width
big-endian byte string. Only the unsigned encoding is exercised by the
checker (the 160-bit address redirection). -/
def decimalEncodeBytes (dt : DataType) (v : Rat) : List Nat :=
  if dt.major = DataTypeMajorUint then
    natToBytesBE (dt.minor + 1) (wrapUnsigned (8 * (dt.minor + 1)) (ratTrunc v)).toNat
  else
    []

/-! ## Decimal normalization and the digit cap -/

/-- Modelled from the spec (§3): the fixed maximum number of digits of a
decimal constant. The exact constant is defined outside the provided
source; the claims below do not depend on its exact value, only on it
being large. -/
def MaxIntegerPartDigits : Nat := 200

/-- Modelled from the spec: the fixed maximum number of fractional
digits kept by constant division. -/
def MaxFractionalPartDigits : Nat := 200

/-- Modelled from the spec: `normalizeDecimal` strips trailing
fractional zeros of the decimal representation; on the rational value it
is the identity. -/
def normalizeDecimal (v : Rat) : Rat := v

/-- Modelled from the spec: `safeDecimalRange` bounds the magnitude of a
decimal constant by the digit cap. -/
def safeDecimalRange (v : Rat) : Bool :=
  decide (v < (10 : Rat) ^ MaxIntegerPartDigits ∧ -((10 : Rat) ^ MaxIntegerPartDigits) < v)

/-! ## Three-valued booleans -/

/-- Modelled from the spec (§3, §8): the three-valued boolean carried by
boolean literals and produced by folding, with `Unknown` as the zero
value. -/
inductive BoolValue where
  | bvUnknown
  | bvFalse
  | bvTrue
deriving DecidableEq, Repr

/-- Modelled from the spec: `Valid` distinguishes definite values from
`Unknown`. -/
def BoolValue.valid : BoolValue → Bool
  | .bvUnknown => false
  | _ => true

/-- `NewBoolValueFromBool`. -/
def boolValueFromBool (b : Bool) : BoolValue :=
  if b then .bvTrue else .bvFalse

/-- Modelled from the spec: Kleene conjunction. -/
def BoolValue.and3 : BoolValue → BoolValue → BoolValue
  | .bvFalse, _ => .bvFalse
  | _, .bvFalse => .bvFalse
  | .bvTrue, .bvTrue => .bvTrue
  | _, _ => .bvUnknown

/-- Modelled from the spec: Kleene disjunction. -/
def BoolValue.or3 : BoolValue → BoolValue → BoolValue
  | .bvTrue, _ => .bvTrue
  | _, .bvTrue => .bvTrue
  | .bvFalse, .bvFalse => .bvFalse
  | _, _ => .bvUnknown

/-- Modelled from the spec: Kleene negation. -/
def BoolValue.not3 : BoolValue → BoolValue
  | .bvUnknown => .bvUnknown
  | .bvFalse => .bvTrue
  | .bvTrue => .bvFalse

/-- Modelled from the spec: three-valued equality. -/
def BoolValue.equal3 : BoolValue → BoolValue → BoolValue
  | .bvUnknown, _ => .bvUnknown
  | _, .bvUnknown => .bvUnknown
  | a, b => boolValueFromBool (a = b)

/-- Modelled from the spec: three-valued inequality. -/
def BoolValue.notEqual3 : BoolValue → BoolValue → BoolValue
  | .bvUnknown, _ => .bvUnknown
  | _, .bvUnknown => .bvUnknown
  | a, b => boolValueFromBool (a ≠ b)

/-- Modelled from the spec: three-valued strict order with
`False < True`. -/
def BoolValue.greater3 : BoolValue → BoolValue → BoolValue
  | .bvUnknown, _ => .bvUnknown
  | _, .bvUnknown => .bvUnknown
  | a, b => boolValueFromBool (a = .bvTrue ∧ b = .bvFalse)

/-- Modelled from the spec: three-valued `≥` with `False < True`. -/
def BoolValue.greaterOrEqual3 : BoolValue → BoolValue → BoolValue
  | .bvUnknown, _ => .bvUnknown
  | _, .bvUnknown => .bvUnknown
  | a, b => boolValueFromBool (a = .bvTrue ∨ b = .bvFalse)

/-- Modelled from the spec: three-valued `≤` with `False < True`. -/
def BoolValue.lessOrEqual3 : BoolValue → BoolValue → BoolValue
  | .bvUnknown, _ => .bvUnknown
  | _, .bvUnknown => .bvUnknown
  | a, b => boolValueFromBool (a = .bvFalse ∨ b = .bvTrue)

/-! ## Diagnostics -/

/-- Severity of a diagnostic entry. -/
inductive Severity where
  | sevError
  | sevWarning
  | sevNote
deriving DecidableEq, Repr

/-- The structured error codes appended by the checker. `codeNone`
stands for the zero code used by warnings and notes. -/
inductive ErrCode where
  | codeNone
  | codeTypeError
  | codeNonConstantExpression
  | codeColumnNotFound
  | codeConstantTooLong
  | codeOverflow
  | codeInvalidAddressChecksum
  | codeDividedByZero
  | codePendingEscapeByte
deriving DecidableEq, Repr

/-- One diagnostics entry; the human-readable message of the source is
elided, the structured fields are kept. -/
structure Diag where
  position : Nat
  length : Nat
  code : ErrCode
  severity : Severity
deriving DecidableEq, Repr

/-! ## AST nodes -/

/-- The source span of a node: position, length and raw token text. -/
structure NodeInfo where
  position : Nat
  length : Nat
  token : String
deriving DecidableEq, Repr

/-- The binary operator kinds embedded by this development. -/
inductive BinOpKind where
  | opAnd
  | opOr
  | opGreaterOrEqual
  | opLessOrEqual
  | opNotEqual
  | opEqual
  | opGreater
  | opLess
  | opConcat
  | opAdd
  | opSub
  | opMul
  | opDiv
  | opMod
deriving DecidableEq, Repr

/-- Expression nodes: the six value-node variants (the `Valuer`s of the
source) and binary operator nodes. Every node carries its span and its
mutable data type field. -/
inductive ExprNode where
  | boolV (info : NodeInfo) (dt : DataType) (v : BoolValue)
  | addressV (info : NodeInfo) (dt : DataType) (v : List Nat)
  | integerV (info : NodeInfo) (dt : DataType) (isAddress : Bool) (v : Rat)
  | decimalV (info : NodeInfo) (dt : DataType) (v : Rat)
  | bytesV (info : NodeInfo) (dt : DataType) (v : List Nat)
  | nullV (info : NodeInfo) (dt : DataType)
  | binOpV (info : NodeInfo) (dt : DataType) (kind : BinOpKind)
      (object : ExprNode) (subject : ExprNode)
deriving DecidableEq, Repr

/-- `GetType`. -/
def ExprNode.getType : ExprNode → DataType
  | .boolV _ dt _ => dt
  | .addressV _ dt _ => dt
  | .integerV _ dt _ _ => dt
  | .decimalV _ dt _ => dt
  | .bytesV _ dt _ => dt
  | .nullV _ dt => dt
  | .binOpV _ dt _ _ _ => dt

/-- `SetType`. -/
def ExprNode.setType : ExprNode → DataType → ExprNode
  | .boolV i _ v, dt => .boolV i dt v
  | .addressV i _ v, dt => .addressV i dt v
  | .integerV i _ a v, dt => .integerV i dt a v
  | .decimalV i _ v, dt => .decimalV i dt v
  | .bytesV i _ v, dt => .bytesV i dt v
  | .nullV i _, dt => .nullV i dt
  | .binOpV i _ k a b, dt => .binOpV i dt k a b

/-- The span of a node (`GetPosition`, `GetLength`, `GetToken`). -/
def ExprNode.info : ExprNode → NodeInfo
  | .boolV i _ _ => i
  | .addressV i _ _ => i
  | .integerV i _ _ _ => i
  | .decimalV i _ _ => i
  | .bytesV i _ _ => i
  | .nullV i _ => i
  | .binOpV i _ _ _ _ => i

/-- Whether a node implements the `Valuer` capability (value leaves). -/
def ExprNode.isValuer : ExprNode → Bool
  | .binOpV _ _ _ _ _ => false
  | _ => true

/-! ## Type actions and check options -/

/-- Modelled from the spec (§3, §4.2): the type-action protocol. A `nil`
action of the source is `Option.none` here. -/
inductive TypeAction where
  | inferDefault
  | inferWithSize (size : Nat)
  | inferWithMajor (major : Nat)
  | assign (dt : DataType)
deriving DecidableEq, Repr

/-- Modelled from the spec (§6): the bit-flag check options. -/
structure CheckOptions where
  safeMath : Bool
  constantOnly : Bool
deriving DecidableEq, Repr

/-! ## Constant value abstraction -/

/-- Modelled from the spec (§2): the three internal constant-value
kinds, each with its nullability (`none` components stand for the
from-`nil` variants). -/
inductive ConstantValue where
  | cvBool (v : BoolValue)
  | cvBytes (v : Option (List Nat))
  | cvDecimal (v : Option Rat)
deriving DecidableEq, Repr

/-! ## Diagnostic constructors

Each mirrors one `elAppend...` helper of the source (or one inline
`el.Append` call); the message text is elided. -/

/-- A type-error diagnostic at the given span, as appended by every
`elAppendTypeError...` helper and the inline type-error appends. -/
def diagTypeError (i : NodeInfo) : Diag :=
  ⟨i.position, i.length, .codeTypeError, .sevError⟩

/-- `elAppendConstantTooLongError`. -/
def diagConstantTooLong (i : NodeInfo) : Diag :=
  ⟨i.position, i.length, .codeConstantTooLong, .sevError⟩

/-- `elAppendOverflowError`: an error followed by a range note. -/
def diagOverflowErrorPair (i : NodeInfo) : List Diag :=
  [⟨i.position, i.length, .codeOverflow, .sevError⟩,
   ⟨i.position, i.length, .codeNone, .sevNote⟩]

/-- `elAppendOverflowWarning`: severity warning, zero code. -/
def diagOverflowWarning (i : NodeInfo) : Diag :=
  ⟨i.position, i.length, .codeNone, .sevWarning⟩

/-- The invalid-address-checksum error of `checkIntegerValue`. -/
def diagInvalidAddressChecksum (i : NodeInfo) : Diag :=
  ⟨i.position, i.length, .codeInvalidAddressChecksum, .sevError⟩

/-- The division-by-zero error of `checkArithmeticBinaryOperator`. -/
def diagDividedByZero (i : NodeInfo) : Diag :=
  ⟨i.position, i.length, .codeDividedByZero, .sevError⟩

/-- `reportTooBig` of `checkConcatOperator`: an error followed by a
note suggesting dynamically-sized bytes. -/
def diagConcatTooBigPair (i : NodeInfo) : List Diag :=
  [⟨i.position, i.length, .codeTypeError, .sevError⟩,
   ⟨i.position, i.length, .codeNone, .sevNote⟩]

/-! ## Value-node check functions -/

/-- `checkBoolValue`. -/
def checkBoolValue (i : NodeInfo) (dt0 : DataType) (v : BoolValue)
    (ta : Option TypeAction) : Option ExprNode × List Diag :=
  match ta with
  | some (.assign dtA) =>
    if dtA.major = DataTypeMajorBool then (some (.boolV i dt0 v), [])
    else (none, [diagTypeError i])
  | _ => (some (.boolV i dt0 v), [])

/-- `checkAddressValue`. -/
def checkAddressValue (i : NodeInfo) (dt0 : DataType) (v : List Nat)
    (ta : Option TypeAction) : Option ExprNode × List Diag :=
  match ta with
  | some (.assign dtA) =>
    if dtA.major = DataTypeMajorAddress then (some (.addressV i dt0 v), [])
    else (none, [diagTypeError i])
  | _ => (some (.addressV i dt0 v), [])

/-- `checkNullValue`. -/
def checkNullValue (i : NodeInfo) (dt0 : DataType)
    (ta : Option TypeAction) : Option ExprNode × List Diag :=
  let dt := match ta with
    | none => DataTypePending
    | some .inferDefault => DataTypeNull
    | some (.inferWithSize _) => DataTypeNull
    | some (.inferWithMajor _) => DataTypeNull
    | some (.assign dtA) => dtA
  if dt.isPending then (some (.nullV i dt0), []) else (some (.nullV i dt), [])

/-- The trailing `SetType` of `checkIntegerValue`: the type is only set
when the determined type is not pending. -/
def integerTail (i : NodeInfo) (dt0 dt : DataType) (isAddress : Bool) (v : Rat) : ExprNode :=
  if dt.isPending then .integerV i dt0 isAddress v else .integerV i dt isAddress v

/-- The `infer` closure of `checkIntegerValue`: try the signed integer
category of the given byte size, fall back to unsigned for non-negative
values beyond the signed maximum; out-of-range values are a hard error
in safe-math mode and are cropped with a warning otherwise. -/
def integerInfer (o : CheckOptions) (i : NodeInfo) (v : Rat) (size : Nat) :
    (DataType × Bool) × Rat × List Diag :=
  let minor := size - 1
  let dtI : DataType := ⟨DataTypeMajorInt, minor⟩
  let mm := mustGetMinMax dtI
  if v < mm.1 then
    if o.safeMath then ((dtI, false), v, diagOverflowErrorPair i)
    else
      let cropped := normalizeDecimal (cropDecimal dtI v)
      ((dtI, true), cropped, [diagOverflowWarning i])
  else if v ≤ mm.2 then ((dtI, true), v, [])
  else
    let dtU : DataType := ⟨DataTypeMajorUint, minor⟩
    let mmU := mustGetMinMax dtU
    if v > mmU.2 then
      if o.safeMath then ((dtU, false), v, diagOverflowErrorPair i)
      else
        let cropped := normalizeDecimal (cropDecimal dtU v)
        ((dtU, true), cropped, [diagOverflowWarning i])
    else ((dtU, true), v, [])

/-- The `typeActionAssign` arm of `checkIntegerValue`, also reached via
the `goto` after an `inferWithMajor` rewrite. For an address type the
value is re-dispatched to `checkAddressValue` through a freshly
allocated address node; the source copies the span of that fresh node
onto itself, so the zero span stays in place. -/
def checkIntegerValueAssign (o : CheckOptions) (i : NodeInfo) (dt0 : DataType)
    (isAddress : Bool) (v : Rat) (dtA : DataType) : Option ExprNode × List Diag :=
  if dtA.major = DataTypeMajorAddress then
    if ¬ isAddress then (none, [diagInvalidAddressChecksum i])
    else
      let zeroSpan : NodeInfo := ⟨0, 0, ""⟩
      let addrBytes := decimalEncodeBytes ⟨DataTypeMajorUint, 160 / 8 - 1⟩ v
      checkAddressValue zeroSpan DataTypePending addrBytes (some (.assign dtA))
  else if dtA.major = DataTypeMajorInt ∨ dtA.major = DataTypeMajorUint ∨
      isFixedRange dtA.major ∨ isUfixedRange dtA.major then
    let mm := mustGetMinMax dtA
    if v < mm.1 ∨ v > mm.2 then
      if o.safeMath then (none, diagOverflowErrorPair i)
      else
        let cropped := normalizeDecimal (cropDecimal dtA v)
        (some (integerTail i dt0 dtA isAddress cropped), [diagOverflowWarning i])
    else (some (integerTail i dt0 dtA isAddress v), [])
  else (none, [diagTypeError i])

/-- `checkIntegerValue`. -/
def checkIntegerValue (o : CheckOptions) (i : NodeInfo) (dt0 : DataType)
    (isAddress : Bool) (v0 : Rat) (ta : Option TypeAction) : Option ExprNode × List Diag :=
  let v := normalizeDecimal v0
  if ¬ safeDecimalRange v then (none, [diagConstantTooLong i])
  else
    match ta with
    | none => (some (.integerV i dt0 isAddress v), [])
    | some .inferDefault =>
      let r := integerInfer o i v (256 / 8)
      if r.1.2 then (some (integerTail i dt0 r.1.1 isAddress r.2.1), r.2.2)
      else (none, r.2.2)
    | some (.inferWithSize size) =>
      let r := integerInfer o i v size
      if r.1.2 then (some (integerTail i dt0 r.1.1 isAddress r.2.1), r.2.2)
      else (none, r.2.2)
    | some (.inferWithMajor m) =>
      if m = DataTypeMajorAddress then
        checkIntegerValueAssign o i dt0 isAddress v ⟨m, DataTypeMinorDontCare⟩
      else if m = DataTypeMajorInt ∨ m = DataTypeMajorUint then
        checkIntegerValueAssign o i dt0 isAddress v ⟨m, 256 / 8 - 1⟩
      else if m = DataTypeMajorFixed ∨ m = DataTypeMajorUfixed then
        checkIntegerValueAssign o i dt0 isAddress v ⟨m + (128 / 8 - 1), 18⟩
      else
        let r := integerInfer o i v (256 / 8)
        if r.1.2 then (some (integerTail i dt0 r.1.1 isAddress r.2.1), r.2.2)
        else (none, r.2.2)
    | some (.assign dtA) => checkIntegerValueAssign o i dt0 isAddress v dtA

/-- Floor of a rational. -/
def ratFloor (q : Rat) : Int := Int.fdiv q.num q.den

/-- Rounding half away from zero to the given number of fractional
decimal digits, as decimal `Round` does. -/
def ratRound (q : Rat) (d : Nat) : Rat :=
  let scaled := q * 10 ^ d
  let r : Int := if scaled ≥ 0 then ratFloor (scaled + 1 / 2) else -ratFloor (-scaled + 1 / 2)
  (r : Rat) / 10 ^ d

/-- The trailing block of `checkDecimalValue`: when the determined type
is concrete the node is re-typed and its value rounded to the type's
fractional precision. -/
def decimalTail (i : NodeInfo) (dt0 dt : DataType) (v : Rat) : ExprNode :=
  if dt.isPending then .decimalV i dt0 v
  else .decimalV i dt (normalizeDecimal (ratRound v dt.minor))

/-- The `infer` closure of `checkDecimalValue`, trying the fixed
category of the given byte size and falling back to ufixed. In the
below-minimum branch the permissive path crops the value, appends only a
warning, and still reports failure to its caller. -/
def decimalInfer (o : CheckOptions) (i : NodeInfo) (v : Rat)
    (size fractionalDigits : Nat) : (DataType × Bool) × Rat × List Diag :=
  let dtF : DataType := ⟨DataTypeMajorFixed + (size - 1), fractionalDigits⟩
  let mm := mustGetMinMax dtF
  if v < mm.1 then
    if o.safeMath then ((dtF, false), v, diagOverflowErrorPair i)
    else
      let cropped := normalizeDecimal (cropDecimal dtF v)
      ((dtF, false), cropped, [diagOverflowWarning i])
  else if v ≤ mm.2 then ((dtF, true), v, [])
  else
    let dtU : DataType := ⟨DataTypeMajorUfixed + (size - 1), fractionalDigits⟩
    let mmU := mustGetMinMax dtU
    if v > mmU.2 then
      if o.safeMath then ((dtU, false), v, diagOverflowErrorPair i)
      else
        let cropped := normalizeDecimal (cropDecimal dtU v)
        ((dtU, true), cropped, [diagOverflowWarning i])
    else ((dtU, true), v, [])

/-- The `typeActionAssign` arm of `checkDecimalValue` (the value is
known to have a fractional part here). -/
def checkDecimalValueAssign (o : CheckOptions) (i : NodeInfo) (dt0 : DataType)
    (v : Rat) (dtA : DataType) : Option ExprNode × List Diag :=
  if isFixedRange dtA.major ∨ isUfixedRange dtA.major then
    let mm := mustGetMinMax dtA
    if v < mm.1 ∨ v > mm.2 then
      if o.safeMath then (none, diagOverflowErrorPair i)
      else
        let cropped := normalizeDecimal (cropDecimal dtA v)
        (some (decimalTail i dt0 dtA cropped), [diagOverflowWarning i])
    else (some (decimalTail i dt0 dtA v), [])
  else if dtA.major = DataTypeMajorInt ∨ dtA.major = DataTypeMajorUint then
    (none, [diagTypeError i])
  else (none, [diagTypeError i])

/-- The `typeActionInferDefault` arm of `checkDecimalValue` (also used
for `inferWithSize`, whose size hint is ignored, and for the rewritten
default of `inferWithMajor`). -/
def checkDecimalValueInferDefault (o : CheckOptions) (i : NodeInfo) (dt0 : DataType)
    (v : Rat) : Option ExprNode × List Diag :=
  let r := decimalInfer o i v (128 / 8) 18
  if r.1.2 then (some (decimalTail i dt0 r.1.1 r.2.1), r.2.2)
  else (none, r.2.2)

/-- `checkDecimalValue`. Integral values are redirected to
`checkIntegerValue` through a fresh integer node that copies span and
type from the original. -/
def checkDecimalValue (o : CheckOptions) (i : NodeInfo) (dt0 : DataType)
    (v0 : Rat) (ta : Option TypeAction) : Option ExprNode × List Diag :=
  let v := normalizeDecimal v0
  if ¬ safeDecimalRange v then (none, [diagConstantTooLong i])
  else if ((ratTrunc v : Int) : Rat) = v then
    checkIntegerValue o i dt0 false v ta
  else
    match ta with
    | none => (some (.decimalV i dt0 v), [])
    | some .inferDefault => checkDecimalValueInferDefault o i dt0 v
    | some (.inferWithSize _) => checkDecimalValueInferDefault o i dt0 v
    | some (.inferWithMajor m) =>
      if m = DataTypeMajorFixed ∨ m = DataTypeMajorUfixed then
        checkDecimalValueAssign o i dt0 v ⟨m + (128 / 8 - 1), 18⟩
      else if m = DataTypeMajorInt ∨ m = DataTypeMajorUint then
        checkDecimalValueAssign o i dt0 v ⟨m, 256 / 8 - 1⟩
      else checkDecimalValueInferDefault o i dt0 v
    | some (.assign dtA) => checkDecimalValueAssign o i dt0 v dtA

/-- The trailing `SetType` of `checkBytesValue`. -/
def bytesTail (i : NodeInfo) (dt0 dt : DataType) (v : List Nat) : ExprNode :=
  if dt.isPending then .bytesV i dt0 v else .bytesV i dt v

/-- The `typeActionAssign` arm of `checkBytesValue`: dynamic bytes are
always valid; fixed-size bytes require the literal's byte count to equal
the type's size (minor plus one). -/
def checkBytesValueAssign (i : NodeInfo) (dt0 : DataType) (v : List Nat)
    (dtA : DataType) : Option ExprNode × List Diag :=
  if dtA.major = DataTypeMajorDynamicBytes then
    (some (bytesTail i dt0 dtA v), [])
  else if dtA.major = DataTypeMajorFixedBytes then
    if v.length ≠ dtA.minor + 1 then (none, [diagTypeError i])
    else (some (bytesTail i dt0 dtA v), [])
  else (none, [diagTypeError i])

/-- `checkBytesValue`. In the `inferWithMajor` fixed-bytes arm the
source composes the inferred type with minor equal to the byte length of
the literal (not the byte length minus one) before re-dispatching to the
assign arm. -/
def checkBytesValue (i : NodeInfo) (dt0 : DataType) (v : List Nat)
    (ta : Option TypeAction) : Option ExprNode × List Diag :=
  match ta with
  | none => (some (.bytesV i dt0 v), [])
  | some .inferDefault =>
    checkBytesValueAssign i dt0 v ⟨DataTypeMajorDynamicBytes, DataTypeMinorDontCare⟩
  | some (.inferWithSize size) =>
    checkBytesValueAssign i dt0 v ⟨DataTypeMajorFixedBytes, size - 1⟩
  | some (.inferWithMajor m) =>
    if m = DataTypeMajorFixedBytes then
      if v.length < 1 ∨ 32 < v.length then (none, [diagTypeError i])
      else checkBytesValueAssign i dt0 v ⟨m, v.length⟩
    else if m = DataTypeMajorDynamicBytes then
      checkBytesValueAssign i dt0 v ⟨m, DataTypeMinorDontCare⟩
    else
      checkBytesValueAssign i dt0 v ⟨DataTypeMajorDynamicBytes, DataTypeMinorDontCare⟩
  | some (.assign dtA) => checkBytesValueAssign i dt0 v dtA

/-! ## Operand validators -/

/-- `validateNumberType`. -/
def validateNumberType (dt : DataType) (i : NodeInfo) : Bool × List Diag :=
  if dt.isPending then (true, [])
  else if dt.major = DataTypeMajorInt ∨ dt.major = DataTypeMajorUint ∨
      isFixedRange dt.major ∨ isUfixedRange dt.major then (true, [])
  else (false, [diagTypeError i])

/-- `validateBoolType`. -/
def validateBoolType (dt : DataType) (i : NodeInfo) : Bool × List Diag :=
  if dt.isPending then (true, [])
  else if dt.major = DataTypeMajorBool then (true, [])
  else (false, [diagTypeError i])

/-- `validateOrderedType`. The source lists the `Fixed` range twice and
never mentions the `Ufixed` range; this is transcribed verbatim. -/
def validateOrderedType (dt : DataType) (i : NodeInfo) : Bool × List Diag :=
  if dt.isPending then (true, [])
  else if dt.major = DataTypeMajorBool ∨ dt.major = DataTypeMajorAddress ∨
      dt.major = DataTypeMajorInt ∨ dt.major = DataTypeMajorUint ∨
      dt.major = DataTypeMajorFixedBytes ∨ dt.major = DataTypeMajorDynamicBytes ∨
      isFixedRange dt.major ∨ isFixedRange dt.major then (true, [])
  else (false, [diagTypeError i])

/-- `validateBytesType`. -/
def validateBytesType (dt : DataType) (i : NodeInfo) : Bool × List Diag :=
  if dt.isPending then (true, [])
  else if dt.major = DataTypeMajorFixedBytes ∨ dt.major = DataTypeMajorDynamicBytes then
    (true, [])
  else (false, [diagTypeError i])

/-! ## Value extraction -/

/-- Result statuses of `extractNumberValue`. -/
inductive NumStatus where
  | nsError
  | nsInteger
  | nsDecimal
  | nsNullWithType
  | nsNullWithoutType
deriving DecidableEq, Repr

/-- `extractNumberValue`. -/
def extractNumberValue : ExprNode → Rat × NumStatus × List Diag
  | .integerV _ _ _ v => (v, .nsInteger, [])
  | .decimalV _ _ v => (v, .nsDecimal, [])
  | .nullV _ dt =>
    if dt.isPending then (0, .nsNullWithoutType, []) else (0, .nsNullWithType, [])
  | .boolV i _ _ => (0, .nsError, [diagTypeError i])
  | .addressV i _ _ => (0, .nsError, [diagTypeError i])
  | .bytesV i _ _ => (0, .nsError, [diagTypeError i])
  | .binOpV _ _ _ _ _ => (0, .nsError, [])

/-- `extractBoolValue`. -/
def extractBoolValue : ExprNode → BoolValue × Bool × List Diag
  | .boolV _ _ v => (v, true, [])
  | .nullV _ _ => (.bvUnknown, true, [])
  | .addressV i _ _ => (.bvUnknown, false, [diagTypeError i])
  | .integerV i _ _ _ => (.bvUnknown, false, [diagTypeError i])
  | .decimalV i _ _ => (.bvUnknown, false, [diagTypeError i])
  | .bytesV i _ _ => (.bvUnknown, false, [diagTypeError i])
  | .binOpV _ _ _ _ _ => (.bvUnknown, false, [])

/-- Result statuses of `extractBytesValue`. -/
inductive ByteStatus where
  | bsError
  | bsBytes
  | bsNullWithType
  | bsNullWithoutType
deriving DecidableEq, Repr

/-- `extractBytesValue`. -/
def extractBytesValue : ExprNode → List Nat × ByteStatus × List Diag
  | .bytesV _ _ v => (v, .bsBytes, [])
  | .nullV _ dt =>
    if dt.isPending then ([], .bsNullWithoutType, []) else ([], .bsNullWithType, [])
  | .boolV i _ _ => ([], .bsError, [diagTypeError i])
  | .addressV i _ _ => ([], .bsError, [diagTypeError i])
  | .integerV i _ _ _ => ([], .bsError, [diagTypeError i])
  | .decimalV i _ _ => ([], .bsError, [diagTypeError i])
  | .binOpV _ _ _ _ _ => ([], .bsError, [])

/-- `compatibleValueNodes`: kind compatibility of two value nodes for
relational folding (integers and decimals are mutually compatible, a
null is compatible with everything). The operator case is unreachable:
the callers only pass `Valuer`s. -/
def compatibleValueNodes : ExprNode → ExprNode → Bool
  | .boolV _ _ _, .boolV _ _ _ => true
  | .boolV _ _ _, .nullV _ _ => true
  | .boolV _ _ _, _ => false
  | .addressV _ _ _, .addressV _ _ _ => true
  | .addressV _ _ _, .nullV _ _ => true
  | .addressV _ _ _, _ => false
  | .integerV _ _ _ _, .integerV _ _ _ _ => true
  | .integerV _ _ _ _, .decimalV _ _ _ => true
  | .integerV _ _ _ _, .nullV _ _ => true
  | .integerV _ _ _ _, _ => false
  | .decimalV _ _ _, .integerV _ _ _ _ => true
  | .decimalV _ _ _, .decimalV _ _ _ => true
  | .decimalV _ _ _, .nullV _ _ => true
  | .decimalV _ _ _, _ => false
  | .bytesV _ _ _, .bytesV _ _ _ => true
  | .bytesV _ _ _, .nullV _ _ => true
  | .bytesV _ _ _, _ => false
  | .nullV _ _, _ => true
  | .binOpV _ _ _ _ _, _ => false

/-- `extractConstantValue`: value nodes to the constant-value
abstraction; a null node yields Go's `nil` interface (`none`). -/
def extractConstantValue : ExprNode → Option ConstantValue
  | .boolV _ _ v => some (.cvBool v)
  | .addressV _ _ v => some (.cvBytes (some v))
  | .integerV _ _ _ v => some (.cvDecimal (some v))
  | .decimalV _ _ v => some (.cvDecimal (some v))
  | .bytesV _ _ v => some (.cvBytes (some v))
  | .nullV _ _ => none
  | .binOpV _ _ _ _ _ => none

/-- `newNilConstantValue`: the typed-null constant of the same kind as
the given constant. -/
def newNilConstantValue : ConstantValue → ConstantValue
  | .cvBool _ => .cvBool .bvUnknown
  | .cvBytes _ => .cvBytes none
  | .cvDecimal _ => .cvDecimal none

/-! ## Fold evaluation closures

One definition per anonymous closure passed to
`checkRelationalOperator` by the six relational check functions,
transcribed verbatim from the source (including the comparator each
closure actually calls). -/

/-- Lexicographic byte-string comparison, as `bytes.Compare`. -/
def bytesCompare : List Nat → List Nat → Int
  | [], [] => 0
  | [], _ :: _ => -1
  | _ :: _, [] => 1
  | a :: as, b :: bs => if a < b then -1 else if b < a then 1 else bytesCompare as bs

/-- The boolean closure of `checkGreaterOrEqualOperator`. -/
def evalGreaterOrEqualBool (v1 v2 : BoolValue) : BoolValue := v1.greaterOrEqual3 v2

/-- The bytes closure of `checkGreaterOrEqualOperator`. -/
def evalGreaterOrEqualBytes (v1 v2 : Option (List Nat)) : BoolValue :=
  match v1, v2 with
  | some a, some b => boolValueFromBool (bytesCompare a b ≥ 0)
  | _, _ => .bvUnknown

/-- The decimal closure of `checkGreaterOrEqualOperator`. -/
def evalGreaterOrEqualDecimal (v1 v2 : Option Rat) : BoolValue :=
  match v1, v2 with
  | some a, some b => boolValueFromBool (a ≥ b)
  | _, _ => .bvUnknown

/-- The boolean closure of `checkLessOrEqualOperator`. -/
def evalLessOrEqualBool (v1 v2 : BoolValue) : BoolValue := v1.lessOrEqual3 v2

/-- The bytes closure of `checkLessOrEqualOperator`. -/
def evalLessOrEqualBytes (v1 v2 : Option (List Nat)) : BoolValue :=
  match v1, v2 with
  | some a, some b => boolValueFromBool (bytesCompare a b ≤ 0)
  | _, _ => .bvUnknown

/-- The decimal closure of `checkLessOrEqualOperator`, transcribed
verbatim: it calls the greater-than-or-equal comparator. -/
def evalLessOrEqualDecimal (v1 v2 : Option Rat) : BoolValue :=
  match v1, v2 with
  | some a, some b => boolValueFromBool (a ≥ b)
  | _, _ => .bvUnknown

/-- The boolean closure of `checkNotEqualOperator`. -/
def evalNotEqualBool (v1 v2 : BoolValue) : BoolValue := v1.notEqual3 v2

/-- The bytes closure of `checkNotEqualOperator`. -/
def evalNotEqualBytes (v1 v2 : Option (List Nat)) : BoolValue :=
  match v1, v2 with
  | some a, some b => boolValueFromBool (a ≠ b)
  | _, _ => .bvUnknown

/-- The decimal closure of `checkNotEqualOperator`. -/
def evalNotEqualDecimal (v1 v2 : Option Rat) : BoolValue :=
  match v1, v2 with
  | some a, some b => boolValueFromBool (a ≠ b)
  | _, _ => .bvUnknown

/-- `evalEqualBool` (a named function in the source, shared with the
`IN` operator). -/
def evalEqualBool (v1 v2 : BoolValue) : BoolValue := v1.equal3 v2

/-- `evalEqualBytes`. -/
def evalEqualBytes (v1 v2 : Option (List Nat)) : BoolValue :=
  match v1, v2 with
  | some a, some b => boolValueFromBool (a = b)
  | _, _ => .bvUnknown

/-- `evalEqualDecimal`. -/
def evalEqualDecimal (v1 v2 : Option Rat) : BoolValue :=
  match v1, v2 with
  | some a, some b => boolValueFromBool (a = b)
  | _, _ => .bvUnknown

/-- The boolean closure of `checkGreaterOperator`. -/
def evalGreaterBool (v1 v2 : BoolValue) : BoolValue := v1.greater3 v2

/-- The bytes closure of `checkGreaterOperator`. -/
def evalGreaterBytes (v1 v2 : Option (List Nat)) : BoolValue :=
  match v1, v2 with
  | some a, some b => boolValueFromBool (bytesCompare a b > 0)
  | _, _ => .bvUnknown

/-- The decimal closure of `checkGreaterOperator`. -/
def evalGreaterDecimal (v1 v2 : Option Rat) : BoolValue :=
  match v1, v2 with
  | some a, some b => boolValueFromBool (a > b)
  | _, _ => .bvUnknown

/-- The boolean closure of `checkLessOperator`, transcribed verbatim:
it calls the `Greater` comparator. -/
def evalLessBool (v1 v2 : BoolValue) : BoolValue := v1.greater3 v2

/-- The bytes closure of `checkLessOperator`. -/
def evalLessBytes (v1 v2 : Option (List Nat)) : BoolValue :=
  match v1, v2 with
  | some a, some b => boolValueFromBool (bytesCompare a b < 0)
  | _, _ => .bvUnknown

/-- The decimal closure of `checkLessOperator`. -/
def evalLessDecimal (v1 v2 : Option Rat) : BoolValue :=
  match v1, v2 with
  | some a, some b => boolValueFromBool (a < b)
  | _, _ => .bvUnknown

/-- The evaluation closure of `checkAddOperator`. -/
def evalAdd (v1 v2 : Rat) : Rat := v1 + v2

/-- The evaluation closure of `checkSubOperator`. -/
def evalSub (v1 v2 : Rat) : Rat := v1 - v2

/-- The evaluation closure of `checkMulOperator`. -/
def evalMul (v1 v2 : Rat) : Rat := v1 * v2

/-- The evaluation closure of `checkDivOperator`: the quotient truncated
to the maximum fractional precision. -/
def evalDiv (v1 v2 : Rat) : Rat :=
  ((ratTrunc (v1 / v2 * 10 ^ MaxFractionalPartDigits) : Int) : Rat) / 10 ^ MaxFractionalPartDigits

/-- The evaluation closure of `checkModOperator`: the remainder of the
integral truncated quotient. -/
def evalMod (v1 v2 : Rat) : Rat :=
  v1 - ((ratTrunc (v1 / v2) : Int) : Rat) * v2

/-! ## The type-action helpers and the operator check functions -/

/-- The type of the recursive checker passed into the operator check
functions (the options are already applied). -/
abbrev CheckFun := ExprNode → Option TypeAction → Option ExprNode × List Diag

/-- `verifyTypeAction`: for nodes whose type is already decided, a
mandatory assign action must match the decided type exactly. -/
def verifyTypeAction (r : ExprNode) (dt : DataType) (ta : Option TypeAction) :
    Option ExprNode × List Diag :=
  match ta with
  | some (.assign dtA) =>
    if dt ≠ dtA then (none, [diagTypeError r.info]) else (some r, [])
  | _ => (some r, [])

/-- `delegateTypeAction`: a pending node is re-checked with the caller's
action, otherwise the action is verified. -/
def delegateTypeAction (recur : CheckFun) (r : ExprNode) (dt : DataType)
    (ta : Option TypeAction) : Option ExprNode × List Diag :=
  if ta.isSome ∧ dt.isPending then recur r ta
  else verifyTypeAction r dt ta

/-- `checkChildrenForBinaryOperator`: both children are checked with a
nil action; failure of either fails the operator after both have been
visited. -/
def checkChildrenForBinaryOperator (recur : CheckFun) (object subject : ExprNode) :
    Option (ExprNode × ExprNode) × List Diag :=
  let ro := recur object none
  let rs := recur subject none
  match ro.1, rs.1 with
  | some o', some s' => (some (o', s'), ro.2 ++ rs.2)
  | _, _ => (none, ro.2 ++ rs.2)

/-- `inferBinaryOperatorType`: operands with two concrete types must
agree; a single concrete type is broadcast to the other operand with an
assign action; two pending operands defer. Returns the determined type
together with the (possibly re-checked) operands. -/
def inferBinaryOperatorType (recur : CheckFun) (object subject : ExprNode) :
    Option (DataType × ExprNode × ExprNode) × List Diag :=
  let dtObject := object.getType
  let dtSubject := subject.getType
  if ¬ dtObject.isPending ∧ ¬ dtSubject.isPending then
    if dtObject ≠ dtSubject then (none, [diagTypeError subject.info])
    else (some (dtObject, object, subject), [])
  else if ¬ dtObject.isPending then
    match recur subject (some (.assign dtObject)) with
    | (none, ds) => (none, ds)
    | (some s', ds) => (some (dtObject, object, s'), ds)
  else if ¬ dtSubject.isPending then
    match recur object (some (.assign dtSubject)) with
    | (none, ds) => (none, ds)
    | (some o', ds) => (some (dtSubject, o', subject), ds)
  else (some (DataTypePending, object, subject), [])

/-- `foldRelationalOperator`: compatible value nodes are reduced through
the constant-value abstraction and the operator's three evaluation
closures; the new boolean node carries the zero (pending) type, exactly
as the freshly allocated node of the source. The mixed-kind fallback of
the final match is unreachable (the source aborts there); it is guarded
by `compatibleValueNodes`. -/
def foldRelationalOperator (i0 : NodeInfo) (object subject : ExprNode)
    (evalB : BoolValue → BoolValue → BoolValue)
    (evalBy : Option (List Nat) → Option (List Nat) → BoolValue)
    (evalD : Option Rat → Option Rat → BoolValue) : Option ExprNode × List Diag :=
  if ¬ compatibleValueNodes object subject then (none, [diagTypeError subject.info])
  else
    let arg1 := extractConstantValue object
    let arg2 := extractConstantValue subject
    let args : ConstantValue × ConstantValue :=
      match arg1, arg2 with
      | none, none => (.cvBool .bvUnknown, .cvBool .bvUnknown)
      | none, some a => (newNilConstantValue a, a)
      | some a, none => (a, newNilConstantValue a)
      | some a, some b => (a, b)
    let vo : BoolValue :=
      match args.1, args.2 with
      | .cvBool a, .cvBool b => evalB a b
      | .cvBytes a, .cvBytes b => evalBy a b
      | .cvDecimal a, .cvDecimal b => evalD a b
      | _, _ => .bvUnknown
    (some (.boolV i0 DataTypePending vo), [])

/-- `checkAndOperator`: boolean operand validation, then folding with
constant absorption (a known `False` operand folds the conjunction even
when the other operand is `Unknown`). -/
def checkAndOperator (recur : CheckFun) (i0 : NodeInfo) (dt0 : DataType)
    (object0 subject0 : ExprNode) (ta : Option TypeAction) : Option ExprNode × List Diag :=
  match checkChildrenForBinaryOperator recur object0 subject0 with
  | (none, ds) => (none, ds)
  | (some (object, subject), ds) =>
    let vb1 := validateBoolType object.getType object.info
    if ¬ vb1.1 then (none, ds ++ vb1.2)
    else
      let vb2 := validateBoolType subject.getType subject.info
      if ¬ vb2.1 then (none, ds ++ vb2.2)
      else
        let e1 := if object.isValuer then extractBoolValue object else (.bvUnknown, true, [])
        if ¬ e1.2.1 then (none, ds ++ e1.2.2)
        else
          let e2 := if subject.isValuer then extractBoolValue subject else (.bvUnknown, true, [])
          if ¬ e2.2.1 then (none, ds ++ e1.2.2 ++ e2.2.2)
          else
            let vo := if e1.1.valid && e2.1.valid then e1.1.and3 e2.1
                      else if e1.1 = .bvFalse ∨ e2.1 = .bvFalse then .bvFalse
                      else .bvUnknown
            let r := if vo.valid then ExprNode.boolV i0 DataTypePending vo
                     else .binOpV i0 dt0 .opAnd object subject
            let vr := verifyTypeAction r dt0 ta
            (vr.1, ds ++ e1.2.2 ++ e2.2.2 ++ vr.2)

/-- `checkOrOperator`: dual to `checkAndOperator` (a known `True`
operand folds the disjunction), with the additional assign verification
that the source performs before the final `verifyTypeAction`. -/
def checkOrOperator (recur : CheckFun) (i0 : NodeInfo) (dt0 : DataType)
    (object0 subject0 : ExprNode) (ta : Option TypeAction) : Option ExprNode × List Diag :=
  match checkChildrenForBinaryOperator recur object0 subject0 with
  | (none, ds) => (none, ds)
  | (some (object, subject), ds) =>
    let vb1 := validateBoolType object.getType object.info
    if ¬ vb1.1 then (none, ds ++ vb1.2)
    else
      let vb2 := validateBoolType subject.getType subject.info
      if ¬ vb2.1 then (none, ds ++ vb2.2)
      else
        let e1 := if object.isValuer then extractBoolValue object else (.bvUnknown, true, [])
        if ¬ e1.2.1 then (none, ds ++ e1.2.2)
        else
          let e2 := if subject.isValuer then extractBoolValue subject else (.bvUnknown, true, [])
          if ¬ e2.2.1 then (none, ds ++ e1.2.2 ++ e2.2.2)
          else
            let vo := if e1.1.valid && e2.1.valid then e1.1.or3 e2.1
                      else if e1.1 = .bvTrue ∨ e2.1 = .bvTrue then .bvTrue
                      else .bvUnknown
            let r := if vo.valid then ExprNode.boolV i0 DataTypePending vo
                     else .binOpV i0 dt0 .opOr object subject
            match ta with
            | some (.assign dtA) =>
              if dt0 ≠ dtA then (none, ds ++ e1.2.2 ++ e2.2.2 ++ [diagTypeError i0])
              else
                let vr := verifyTypeAction r dt0 ta
                (vr.1, ds ++ e1.2.2 ++ e2.2.2 ++ vr.2)
            | _ =>
              let vr := verifyTypeAction r dt0 ta
              (vr.1, ds ++ e1.2.2 ++ e2.2.2 ++ vr.2)

/-- `checkRelationalOperator`: the shared driver of the six relational
check functions. Note that the source reads the operator node's own
(never assigned) type for the final verification, and folds the operand
nodes bound before type unification; in-place operand mutation of the
source is reflected by folding the operands returned from
`inferBinaryOperatorType`. -/
def checkRelationalOperator (recur : CheckFun) (i0 : NodeInfo) (dt0 : DataType)
    (kind : BinOpKind) (object0 subject0 : ExprNode) (ta : Option TypeAction)
    (requireOrdered : Bool)
    (evalB : BoolValue → BoolValue → BoolValue)
    (evalBy : Option (List Nat) → Option (List Nat) → BoolValue)
    (evalD : Option Rat → Option Rat → BoolValue) : Option ExprNode × List Diag :=
  match checkChildrenForBinaryOperator recur object0 subject0 with
  | (none, ds) => (none, ds)
  | (some (object1, subject1), ds) =>
    let vo1 := if requireOrdered then validateOrderedType object1.getType object1.info
               else (true, [])
    if ¬ vo1.1 then (none, ds ++ vo1.2)
    else
      let vo2 := if requireOrdered then validateOrderedType subject1.getType subject1.info
                 else (true, [])
      if ¬ vo2.1 then (none, ds ++ vo2.2)
      else
        match inferBinaryOperatorType recur object1 subject1 with
        | (none, ds2) => (none, ds ++ ds2)
        | (some (_, object, subject), ds2) =>
          if object.isValuer && subject.isValuer then
            match foldRelationalOperator i0 object subject evalB evalBy evalD with
            | (none, ds3) => (none, ds ++ ds2 ++ ds3)
            | (some node, ds3) =>
              let vr := verifyTypeAction node dt0 ta
              (vr.1, ds ++ ds2 ++ ds3 ++ vr.2)
          else
            let r := ExprNode.binOpV i0 dt0 kind object subject
            let vr := verifyTypeAction r dt0 ta
            (vr.1, ds ++ ds2 ++ vr.2)

/-- The `infer` closure of `checkConcatOperator`: both operand types are
concrete here; equal bytes majors are required, fixed-size widths are
added and rejected beyond 32 bytes. The non-bytes fallback is
unreachable (the source aborts; majors are validated as bytes). -/
def concatInfer (i0 : NodeInfo) (dtObject dtSubject : DataType) :
    Option DataType × List Diag :=
  if dtObject.major ≠ dtSubject.major then (none, [diagTypeError i0])
  else if dtObject.major = DataTypeMajorFixedBytes then
    let sizeOperator := (dtObject.minor + 1) + (dtSubject.minor + 1)
    if sizeOperator > 32 then (none, diagConcatTooBigPair i0)
    else (some ⟨DataTypeMajorFixedBytes, sizeOperator - 1⟩, [])
  else if dtObject.major = DataTypeMajorDynamicBytes then (some dtObject, [])
  else (none, [])

/-- `checkConcatOperator`. -/
def checkConcatOperator (recur : CheckFun) (i0 : NodeInfo) (dt0 : DataType)
    (object0 subject0 : ExprNode) (ta : Option TypeAction) : Option ExprNode × List Diag :=
  match checkChildrenForBinaryOperator recur object0 subject0 with
  | (none, ds) => (none, ds)
  | (some (object1, subject1), ds) =>
    let vb1 := validateBytesType object1.getType object1.info
    if ¬ vb1.1 then (none, ds ++ vb1.2)
    else
      let vb2 := validateBytesType subject1.getType subject1.info
      if ¬ vb2.1 then (none, ds ++ vb2.2)
      else
        let dtO := object1.getType
        let dtS := subject1.getType
        let step :=
          if ¬ dtO.isPending ∧ ¬ dtS.isPending then
            match concatInfer i0 dtO dtS with
            | (none, d) => (none, d)
            | (some dt, d) => (some (object1, subject1, dt), d)
          else if ¬ dtO.isPending then
            let action : Option TypeAction :=
              if dtO.major = DataTypeMajorFixedBytes then
                some (.inferWithMajor DataTypeMajorFixedBytes)
              else some (.assign dtO)
            match recur subject1 action with
            | (none, d) => (none, d)
            | (some s', d) =>
              match concatInfer i0 dtO s'.getType with
              | (none, d2) => (none, d ++ d2)
              | (some dt, d2) => (some (object1, s', dt), d ++ d2)
          else if ¬ dtS.isPending then
            let action : Option TypeAction :=
              if dtS.major = DataTypeMajorFixedBytes then
                some (.inferWithMajor DataTypeMajorFixedBytes)
              else some (.assign dtS)
            match recur object1 action with
            | (none, d) => (none, d)
            | (some o', d) =>
              match concatInfer i0 o'.getType dtS with
              | (none, d2) => (none, d ++ d2)
              | (some dt, d2) => (some (o', subject1, dt), d ++ d2)
          else (some (object1, subject1, dt0), [])
        match step with
        | (none, d) => (none, ds ++ d)
        | (some (object, subject, dt), d) =>
          if object.isValuer && subject.isValuer then
            let e1 := extractBytesValue object
            if e1.2.1 = .bsError then (none, ds ++ d ++ e1.2.2)
            else if e1.2.1 = .bsNullWithoutType then
              (none, ds ++ d ++ e1.2.2 ++ [diagTypeError object.info])
            else
              let e2 := extractBytesValue subject
              if e2.2.1 = .bsError then (none, ds ++ d ++ e1.2.2 ++ e2.2.2)
              else if e2.2.1 = .bsNullWithoutType then
                (none, ds ++ d ++ e1.2.2 ++ e2.2.2 ++ [diagTypeError subject.info])
              else
                let isNull := e1.2.1 = .bsNullWithType ∨ e2.2.1 = .bsNullWithType
                let r := if isNull then ExprNode.nullV i0 dt
                         else ExprNode.bytesV i0 dt (e1.1 ++ e2.1)
                let dl := delegateTypeAction recur r dt ta
                (dl.1, ds ++ d ++ e1.2.2 ++ e2.2.2 ++ dl.2)
          else
            let r := ExprNode.binOpV i0 dt .opConcat object subject
            let dl := delegateTypeAction recur r dt ta
            (dl.1, ds ++ d ++ dl.2)

/-- The `calc` closure of `checkArithmeticBinaryOperator`, transcribed
verbatim: when the operator's type is concrete, the safe-math hard error
applies only to out-of-range results, after which the crop and the
overflow warning are applied unconditionally; the normalized result is
finally checked against the digit cap. -/
def arithCalc (o : CheckOptions) (i0 : NodeInfo) (dt : DataType)
    (eval : Rat → Rat → Rat) (v1 v2 : Rat) : (Rat × Bool) × List Diag :=
  let r0 := eval v1 v2
  if dt.isPending then
    let r := normalizeDecimal r0
    if ¬ safeDecimalRange r then ((r, false), [diagConstantTooLong i0])
    else ((r, true), [])
  else
    let mm := mustGetMinMax dt
    if (r0 < mm.1 ∨ r0 > mm.2) ∧ o.safeMath then ((r0, false), diagOverflowErrorPair i0)
    else
      let cropped := cropDecimal dt r0
      let r := normalizeDecimal cropped
      if ¬ safeDecimalRange r then
        ((r, false), [diagOverflowWarning i0, diagConstantTooLong i0])
      else ((r, true), [diagOverflowWarning i0])

/-- `checkArithmeticBinaryOperator`: the shared driver of the five
arithmetic check functions. `division` is set for `/` and `%`, which
reject a constant zero divisor unless a null operand short-circuits the
fold first. -/
def checkArithmeticBinaryOperator (recur : CheckFun) (o : CheckOptions)
    (i0 : NodeInfo) (dt0 : DataType) (kind : BinOpKind)
    (object0 subject0 : ExprNode) (ta : Option TypeAction)
    (division : Bool) (eval : Rat → Rat → Rat) : Option ExprNode × List Diag :=
  match checkChildrenForBinaryOperator recur object0 subject0 with
  | (none, ds) => (none, ds)
  | (some (object1, subject1), ds) =>
    let vn1 := validateNumberType object1.getType object1.info
    if ¬ vn1.1 then (none, ds ++ vn1.2)
    else
      let vn2 := validateNumberType subject1.getType subject1.info
      if ¬ vn2.1 then (none, ds ++ vn2.2)
      else
        match inferBinaryOperatorType recur object1 subject1 with
        | (none, ds2) => (none, ds ++ ds2)
        | (some (dt, object, subject), ds2) =>
          if object.isValuer && subject.isValuer then
            let e1 := extractNumberValue object
            if e1.2.1 = .nsError then (none, ds ++ ds2 ++ e1.2.2)
            else if e1.2.1 = .nsNullWithoutType then
              (none, ds ++ ds2 ++ e1.2.2 ++ [diagTypeError object.info])
            else
              let e2 := extractNumberValue subject
              if e2.2.1 = .nsError then (none, ds ++ ds2 ++ e1.2.2 ++ e2.2.2)
              else if e2.2.1 = .nsNullWithoutType then
                (none, ds ++ ds2 ++ e1.2.2 ++ e2.2.2 ++ [diagTypeError subject.info])
              else
                let isNull := e1.2.1 = .nsNullWithType ∨ e2.2.1 = .nsNullWithType
                let isDec := e1.2.1 = .nsDecimal ∨ e2.2.1 = .nsDecimal
                if isNull then
                  let r := ExprNode.nullV i0 dt
                  let dl := delegateTypeAction recur r dt ta
                  (dl.1, ds ++ ds2 ++ dl.2)
                else if division ∧ e2.1 = 0 then
                  (none, ds ++ ds2 ++ [diagDividedByZero subject.info])
                else
                  let c := arithCalc o i0 dt eval e1.1 e2.1
                  if ¬ c.1.2 then (none, ds ++ ds2 ++ c.2)
                  else
                    let r := if division ∨ isDec then ExprNode.decimalV i0 dt c.1.1
                             else ExprNode.integerV i0 dt false c.1.1
                    let dl := delegateTypeAction recur r dt ta
                    (dl.1, ds ++ ds2 ++ c.2 ++ dl.2)
          else
            let r := ExprNode.binOpV i0 dt kind object subject
            let dl := delegateTypeAction recur r dt ta
            (dl.1, ds ++ ds2 ++ dl.2)

/-- `checkExpr`: the recursive dispatcher over the node variant. The
fuel bounds the recursion depth; the source recursion is finite, so the
behaviour at any sufficiently large fuel is the behaviour of the
source. -/
def checkExpr : Nat → CheckOptions → ExprNode → Option TypeAction →
    Option ExprNode × List Diag
  | 0, _, _, _ => (none, [])
  | fuel + 1, o, n, ta =>
    match n with
    | .boolV i dt v => checkBoolValue i dt v ta
    | .addressV i dt v => checkAddressValue i dt v ta
    | .integerV i dt a v => checkIntegerValue o i dt a v ta
    | .decimalV i dt v => checkDecimalValue o i dt v ta
    | .bytesV i dt v => checkBytesValue i dt v ta
    | .nullV i dt => checkNullValue i dt ta
    | .binOpV i dt k object subject =>
      match k with
      | .opAnd => checkAndOperator (checkExpr fuel o) i dt object subject ta
      | .opOr => checkOrOperator (checkExpr fuel o) i dt object subject ta
      | .opGreaterOrEqual =>
        checkRelationalOperator (checkExpr fuel o) i dt .opGreaterOrEqual object subject ta
          true evalGreaterOrEqualBool evalGreaterOrEqualBytes evalGreaterOrEqualDecimal
      | .opLessOrEqual =>
        checkRelationalOperator (checkExpr fuel o) i dt .opLessOrEqual object subject ta
          true evalLessOrEqualBool evalLessOrEqualBytes evalLessOrEqualDecimal
      | .opNotEqual =>
        checkRelationalOperator (checkExpr fuel o) i dt .opNotEqual object subject ta
          false evalNotEqualBool evalNotEqualBytes evalNotEqualDecimal
      | .opEqual =>
        checkRelationalOperator (checkExpr fuel o) i dt .opEqual object subject ta
          false evalEqualBool evalEqualBytes evalEqualDecimal
      | .opGreater =>
        checkRelationalOperator (checkExpr fuel o) i dt .opGreater object subject ta
          true evalGreaterBool evalGreaterBytes evalGreaterDecimal
      | .opLess =>
        checkRelationalOperator (checkExpr fuel o) i dt .opLess object subject ta
          true evalLessBool evalLessBytes evalLessDecimal
      | .opConcat => checkConcatOperator (checkExpr fuel o) i dt object subject ta
      | .opAdd =>
        checkArithmeticBinaryOperator (checkExpr fuel o) o i dt .opAdd object subject ta
          false evalAdd
      | .opSub =>
        checkArithmeticBinaryOperator (checkExpr fuel o) o i dt .opSub object subject ta
          false evalSub
      | .opMul =>
        checkArithmeticBinaryOperator (checkExpr fuel o) o i dt .opMul object subject ta
          false evalMul
      | .opDiv =>
        checkArithmeticBinaryOperator (checkExpr fuel o) o i dt .opDiv object subject ta
          true evalDiv
      | .opMod =>
        checkArithmeticBinaryOperator (checkExpr fuel o) o i dt .opMod object subject ta
          true evalMod

/-! ## Shared evaluation lemmas -/

/-- A numeric literal within the digit cap passes through a nil-action
check unchanged. -/
theorem checkIntegerValue_nil (o : CheckOptions) (i : NodeInfo) (dt : DataType)
    (a : Bool) (v : Rat) (h : safeDecimalRange v = true) :
    checkIntegerValue o i dt a v none = (some (.integerV i dt a v), []) := by
  simp [checkIntegerValue, normalizeDecimal, h]

/-- Zero is within the digit cap. -/
theorem safeDecimalRange_zero : safeDecimalRange (0 : Rat) = true := by
  with_unfolding_all rfl

/-- A null literal passes through a nil-action check unchanged. -/
theorem checkNullValue_nil (i : NodeInfo) (dt : DataType) :
    checkNullValue i dt none = (some (.nullV i dt), []) := rfl

/-- A bytes literal passes through a nil-action check unchanged. -/
theorem checkBytesValue_nil (i : NodeInfo) (dt : DataType) (v : List Nat) :
    checkBytesValue i dt v none = (some (.bytesV i dt v), []) := rfl

/-! ## Claim theorems -/

/-- Claim C1: the claim states that in permissive mode, folding a binary
arithmetic operator with a concrete result type appends an overflow
warning and crops the value if and only if the computed result is out of
range, and that an in-range result is folded unchanged with no warning.
The code refutes the right-to-left absence direction: folding `1 + 2` at
the concrete type `int256` (both operands typed, permissive mode)
computes the in-range value `3`, folds it unchanged, and still appends
an overflow warning, because the crop-and-warn step of the `calc`
closure is outside the range test. -/
theorem claimC1_inRangeArithmeticFoldStillWarns :
    checkExpr 5 ⟨false, false⟩
      (.binOpV ⟨10, 3, "1+2"⟩ DataTypePending .opAdd
        (.integerV ⟨10, 1, "1"⟩ ⟨DataTypeMajorInt, 31⟩ false 1)
        (.integerV ⟨12, 1, "2"⟩ ⟨DataTypeMajorInt, 31⟩ false 2)) none
    = (some (.integerV ⟨10, 3, "1+2"⟩ ⟨DataTypeMajorInt, 31⟩ false 3),
       [⟨10, 3, .codeNone, .sevWarning⟩]) := by
  with_unfolding_all rfl

/-- Claim C2: the claim states that folding `<` and `<=` over two
non-NULL same-kind constants is mathematically correct. The code
refutes it: `1 <= 2` (decimal kind) folds to the constant `False`
because the `<=` decimal closure calls the greater-or-equal comparator,
and `FALSE < TRUE` folds to the constant `False` because the `<` boolean
closure calls the `Greater` comparator. -/
theorem claimC2_lessOrEqualAndLessFoldFalseOnOrderedPairs :
    checkExpr 5 ⟨false, false⟩
      (.binOpV ⟨10, 6, "1<=2"⟩ DataTypePending .opLessOrEqual
        (.integerV ⟨10, 1, "1"⟩ DataTypePending false 1)
        (.integerV ⟨15, 1, "2"⟩ DataTypePending false 2)) none
    = (some (.boolV ⟨10, 6, "1<=2"⟩ DataTypePending .bvFalse), [])
    ∧ checkExpr 5 ⟨false, false⟩
      (.binOpV ⟨20, 12, "FALSE<TRUE"⟩ DataTypePending .opLess
        (.boolV ⟨20, 5, "FALSE"⟩ DataTypePending .bvFalse)
        (.boolV ⟨28, 4, "TRUE"⟩ DataTypePending .bvTrue)) none
    = (some (.boolV ⟨20, 12, "FALSE<TRUE"⟩ DataTypePending .bvFalse), []) := by
  exact ⟨by with_unfolding_all rfl, by with_unfolding_all rfl⟩

/-- Claim C3: the claim states that a nil return from a check function
implies an error-severity diagnostic was appended in that subtree, in
particular on the permissive crop path of a fractional decimal literal
below the inferred type's minimum. The code refutes it: checking the
fractional literal `-(2^127 + 10^18)/10^18` (just below the minimum of
the default `fixed128x18`) with the infer-default action in permissive
mode appends exactly one warning, no error, and returns the failure
sentinel, because the below-minimum arm of the decimal `infer` closure
reports failure after cropping. -/
theorem claimC3_decimalCropPathReturnsNilWithOnlyWarning :
    checkExpr 5 ⟨false, false⟩
      (.decimalV ⟨10, 6, "lit"⟩ DataTypePending (-((2 ^ 127 : Rat) + 10 ^ 18) / 10 ^ 18))
      (some .inferDefault)
    = (none, [⟨10, 6, .codeNone, .sevWarning⟩]) := by
  with_unfolding_all rfl

/-- Claim C4: the claim states that re-checking a pending 2-byte
constant bytes literal with the infer-with-major(fixed bytes) action
(as `||` does when its other operand is a concrete fixed-size bytes
type) succeeds with the fixed-size type of exactly its length. The code
refutes it: the source composes the inferred type with minor equal to
the byte length (3-byte type for a 2-byte literal), so the subsequent
assign verification rejects the literal with a type error and the
concatenation fails. -/
theorem claimC4_inferFixedBytesRejectsItsOwnLiteral :
    checkExpr 5 ⟨false, false⟩
      (.binOpV ⟨10, 9, "a||b"⟩ DataTypePending .opConcat
        (.bytesV ⟨10, 2, "a"⟩ ⟨DataTypeMajorFixedBytes, 1⟩ [222, 173])
        (.bytesV ⟨14, 2, "b"⟩ DataTypePending [190, 239])) none
    = (none, [⟨14, 2, .codeTypeError, .sevError⟩]) := by
  with_unfolding_all rfl

/-- Claim C5: the claim states that every type in the fixed-point
family, the ufixed types included, passes the ordered-category operand
validation of `<`, `>`, `<=`, `>=`. The code refutes it for the ufixed
types: `validateOrderedType` lists the fixed range twice and omits the
ufixed range, so a `<` comparison of two `ufixed128x18` operands fails
with an is-not-defined-for type error on the first operand. -/
theorem claimC5_ufixedOperandRejectedByOrderedValidation :
    checkExpr 5 ⟨false, false⟩
      (.binOpV ⟨10, 5, "a<b"⟩ DataTypePending .opLess
        (.decimalV ⟨10, 1, "a"⟩ ⟨DataTypeMajorUfixed + 15, 18⟩ (mkRat 1 2))
        (.decimalV ⟨14, 1, "b"⟩ ⟨DataTypeMajorUfixed + 15, 18⟩ (mkRat 3 2))) none
    = (none, [⟨10, 1, .codeTypeError, .sevError⟩]) := by
  with_unfolding_all rfl

/-- Claim C6: the claim states that every newly allocated replacement
node copies position, length and token from the node it replaces, the
integer-literal-to-address-literal conversion included. The code refutes
it at that conversion: checking the integer literal with span
`(5, 7, "0x01")` against an assigned address type returns an address
node whose span is the zero value `(0, 0, "")`, because the source
copies the fresh node's own span onto itself. -/
theorem claimC6_addressRedirectDropsSourceSpan :
    checkExpr 5 ⟨false, false⟩
      (.integerV ⟨5, 7, "0x01"⟩ DataTypePending true 1)
      (some (.assign ⟨DataTypeMajorAddress, DataTypeMinorDontCare⟩))
    = (some (.addressV ⟨0, 0, ""⟩ DataTypePending
        [0, 0, 0, 0, 0, 0, 0, 0, 0, 0, 0, 0, 0, 0, 0, 0, 0, 0, 0, 1]), []) := by
  with_unfolding_all rfl

/-- Claim C7: for `/` and `%` over two non-NULL numeric constants whose
divisor is zero, the checker appends a division-by-zero diagnostic of
severity error at the divisor's span and returns the failure sentinel;
the expression is not folded to a value or to Unknown. -/
theorem claimC7_constantZeroDivisorIsHardError (fuel : Nat) (v1 : Rat)
    (h : safeDecimalRange v1 = true) (k : BinOpKind)
    (hk : k = .opDiv ∨ k = .opMod) (i0 i1 i2 : NodeInfo) :
    checkExpr (fuel + 3) ⟨false, false⟩
      (.binOpV i0 DataTypePending k
        (.integerV i1 DataTypePending false v1)
        (.integerV i2 DataTypePending false 0)) none
    = (none, [⟨i2.position, i2.length, .codeDividedByZero, .sevError⟩]) := by
  rcases hk with rfl | rfl <;>
  · simp only [checkExpr, checkArithmeticBinaryOperator, checkChildrenForBinaryOperator,
      checkIntegerValue_nil _ _ _ _ _ h, checkIntegerValue_nil _ _ _ _ _ safeDecimalRange_zero]
    simp [validateNumberType, inferBinaryOperatorType, extractNumberValue,
      ExprNode.getType, ExprNode.isValuer, ExprNode.info, DataType.isPending,
      DataTypePending, DataTypeMajorPending, diagDividedByZero]

/-- Witness for claim C7 at the spec's scenario `7 / 0`. -/
theorem claimC7_constantZeroDivisorIsHardError_witness :
    safeDecimalRange (7 : Rat) = true ∧
    checkExpr 3 ⟨false, false⟩
      (.binOpV ⟨10, 5, "7/0"⟩ DataTypePending .opDiv
        (.integerV ⟨10, 1, "7"⟩ DataTypePending false 7)
        (.integerV ⟨14, 1, "0"⟩ DataTypePending false 0)) none
    = (none, [⟨14, 1, .codeDividedByZero, .sevError⟩]) :=
  ⟨by with_unfolding_all rfl,
   claimC7_constantZeroDivisorIsHardError 0 7 (by with_unfolding_all rfl) .opDiv
     (Or.inl rfl) ⟨10, 5, "7/0"⟩ ⟨10, 1, "7"⟩ ⟨14, 1, "0"⟩⟩

/-- Claim C8: for `||` over two operands typed as fixed-size bytes with
minors `a` and `b` (widths `a+1` and `b+1`), the result is typed as
fixed-size bytes of the combined width when it is at most 32 bytes, and
otherwise the check fails with an error diagnostic followed by the
advisory note, producing no result. -/
theorem claimC8_concatWidthUnification (fuel : Nat) (a b : Nat)
    (ha : a ≤ 31) (hb : b ≤ 31) (u w : List Nat) (i0 i1 i2 : NodeInfo) :
    (a + b + 2 ≤ 32 →
      checkExpr (fuel + 3) ⟨false, false⟩
        (.binOpV i0 DataTypePending .opConcat
          (.bytesV i1 ⟨DataTypeMajorFixedBytes, a⟩ u)
          (.bytesV i2 ⟨DataTypeMajorFixedBytes, b⟩ w)) none
      = (some (.bytesV i0 ⟨DataTypeMajorFixedBytes, a + b + 1⟩ (u ++ w)), []))
    ∧ (32 < a + b + 2 →
      checkExpr (fuel + 3) ⟨false, false⟩
        (.binOpV i0 DataTypePending .opConcat
          (.bytesV i1 ⟨DataTypeMajorFixedBytes, a⟩ u)
          (.bytesV i2 ⟨DataTypeMajorFixedBytes, b⟩ w)) none
      = (none, [⟨i0.position, i0.length, .codeTypeError, .sevError⟩,
                ⟨i0.position, i0.length, .codeNone, .sevNote⟩])) := by
  constructor
  · intro hle
    simp only [checkExpr, checkConcatOperator, checkChildrenForBinaryOperator,
      checkBytesValue_nil]
    simp [validateBytesType, concatInfer, extractBytesValue, delegateTypeAction,
      verifyTypeAction, ExprNode.getType, ExprNode.isValuer, ExprNode.info,
      DataType.isPending, DataTypeMajorPending, DataTypeMajorFixedBytes,
      DataTypeMajorDynamicBytes, diagConcatTooBigPair,
      show ¬ ((a + 1) + (b + 1) > 32) from by omega,
      show (a + 1) + (b + 1) - 1 = a + b + 1 from by omega]
  · intro hgt
    simp only [checkExpr, checkConcatOperator, checkChildrenForBinaryOperator,
      checkBytesValue_nil]
    simp [validateBytesType, concatInfer, extractBytesValue, delegateTypeAction,
      verifyTypeAction, ExprNode.getType, ExprNode.isValuer, ExprNode.info,
      DataType.isPending, DataTypeMajorPending, DataTypeMajorFixedBytes,
      DataTypeMajorDynamicBytes, diagConcatTooBigPair,
      show (a + 1) + (b + 1) > 32 from by omega]

/-- Witness for claim C8: a 2-byte and a 3-byte operand concatenate to
the 5-byte type, and two 20-byte operands are rejected. -/
theorem claimC8_concatWidthUnification_witness :
    ((1 : Nat) ≤ 31 ∧ (2 : Nat) ≤ 31 ∧ 1 + 2 + 2 ≤ 32 ∧
      checkExpr 3 ⟨false, false⟩
        (.binOpV ⟨10, 9, "a||b"⟩ DataTypePending .opConcat
          (.bytesV ⟨10, 2, "a"⟩ ⟨DataTypeMajorFixedBytes, 1⟩ [1, 2])
          (.bytesV ⟨14, 3, "b"⟩ ⟨DataTypeMajorFixedBytes, 2⟩ [3, 4, 5])) none
      = (some (.bytesV ⟨10, 9, "a||b"⟩ ⟨DataTypeMajorFixedBytes, 4⟩ [1, 2, 3, 4, 5]), []))
    ∧ ((19 : Nat) ≤ 31 ∧ (19 : Nat) ≤ 31 ∧ 32 < 19 + 19 + 2 ∧
      checkExpr 3 ⟨false, false⟩
        (.binOpV ⟨10, 9, "a||b"⟩ DataTypePending .opConcat
          (.bytesV ⟨10, 2, "a"⟩ ⟨DataTypeMajorFixedBytes, 19⟩ [])
          (.bytesV ⟨14, 3, "b"⟩ ⟨DataTypeMajorFixedBytes, 19⟩ [])) none
      = (none, [⟨10, 9, .codeTypeError, .sevError⟩, ⟨10, 9, .codeNone, .sevNote⟩])) :=
  ⟨⟨by decide, by decide, by decide,
    (claimC8_concatWidthUnification 0 1 2 (by decide) (by decide) [1, 2] [3, 4, 5]
      ⟨10, 9, "a||b"⟩ ⟨10, 2, "a"⟩ ⟨14, 3, "b"⟩).1 (by decide)⟩,
   ⟨by decide, by decide, by decide,
    (claimC8_concatWidthUnification 0 19 19 (by decide) (by decide) [] []
      ⟨10, 9, "a||b"⟩ ⟨10, 2, "a"⟩ ⟨14, 3, "b"⟩).2 (by decide)⟩⟩

/-- Claim C9: folding `AND` and `OR` over boolean constant operands (a
typed NULL reading as Unknown) absorbs: a `False` operand folds the
conjunction to the constant `False` and a `True` operand folds the
disjunction to the constant `True`, even when the other operand is any
boolean constant, the `UNKNOWN` literal and `NULL` included. -/
theorem claimC9_andOrConstantAbsorption (fuel : Nat) (x : BoolValue)
    (i0 i1 i2 : NodeInfo) :
    (checkExpr (fuel + 3) ⟨false, false⟩
      (.binOpV i0 DataTypePending .opAnd (.boolV i1 DataTypePending .bvFalse)
        (.boolV i2 DataTypePending x)) none
      = (some (.boolV i0 DataTypePending .bvFalse), []))
    ∧ (checkExpr (fuel + 3) ⟨false, false⟩
      (.binOpV i0 DataTypePending .opAnd (.boolV i1 DataTypePending x)
        (.boolV i2 DataTypePending .bvFalse)) none
      = (some (.boolV i0 DataTypePending .bvFalse), []))
    ∧ (checkExpr (fuel + 3) ⟨false, false⟩
      (.binOpV i0 DataTypePending .opAnd (.boolV i1 DataTypePending .bvFalse)
        (.nullV i2 DataTypePending)) none
      = (some (.boolV i0 DataTypePending .bvFalse), []))
    ∧ (checkExpr (fuel + 3) ⟨false, false⟩
      (.binOpV i0 DataTypePending .opAnd (.nullV i1 DataTypePending)
        (.boolV i2 DataTypePending .bvFalse)) none
      = (some (.boolV i0 DataTypePending .bvFalse), []))
    ∧ (checkExpr (fuel + 3) ⟨false, false⟩
      (.binOpV i0 DataTypePending .opOr (.boolV i1 DataTypePending .bvTrue)
        (.boolV i2 DataTypePending x)) none
      = (some (.boolV i0 DataTypePending .bvTrue), []))
    ∧ (checkExpr (fuel + 3) ⟨false, false⟩
      (.binOpV i0 DataTypePending .opOr (.boolV i1 DataTypePending x)
        (.boolV i2 DataTypePending .bvTrue)) none
      = (some (.boolV i0 DataTypePending .bvTrue), []))
    ∧ (checkExpr (fuel + 3) ⟨false, false⟩
      (.binOpV i0 DataTypePending .opOr (.boolV i1 DataTypePending .bvTrue)
        (.nullV i2 DataTypePending)) none
      = (some (.boolV i0 DataTypePending .bvTrue), []))
    ∧ (checkExpr (fuel + 3) ⟨false, false⟩
      (.binOpV i0 DataTypePending .opOr (.nullV i1 DataTypePending)
        (.boolV i2 DataTypePending .bvTrue)) none
      = (some (.boolV i0 DataTypePending .bvTrue), [])) := by
  refine ⟨?_, ?_, ?_, ?_, ?_, ?_, ?_, ?_⟩ <;> cases x <;> rfl

/-- Claim C10: for `/` and `%` with constant operands, a typed NULL
operand short-circuits the fold to a NULL result before the
zero-divisor test, so no division-by-zero diagnostic is emitted even
when the divisor is the literal constant zero. -/
theorem claimC10_nullOperandShortCircuitsZeroDivisorCheck (fuel : Nat)
    (dt : DataType)
    (h : dt.major = DataTypeMajorInt ∨ dt.major = DataTypeMajorUint ∨
         isFixedRange dt.major ∨ isUfixedRange dt.major)
    (k : BinOpKind) (hk : k = .opDiv ∨ k = .opMod) (i0 i1 i2 : NodeInfo) :
    (checkExpr (fuel + 3) ⟨false, false⟩
      (.binOpV i0 DataTypePending k (.nullV i1 dt) (.integerV i2 dt false 0)) none
      = (some (.nullV i0 dt), []))
    ∧ (checkExpr (fuel + 3) ⟨false, false⟩
      (.binOpV i0 DataTypePending k (.integerV i1 dt false 0) (.nullV i2 dt)) none
      = (some (.nullV i0 dt), [])) := by
  have hnp : ¬ dt.isPending := by
    rcases h with h | h | h | h <;>
      simp [DataType.isPending, DataTypeMajorPending, DataTypeMajorInt, DataTypeMajorUint,
        isFixedRange, isUfixedRange, DataTypeMajorFixed, DataTypeMajorUfixed] at h ⊢ <;>
      omega
  rcases hk with rfl | rfl <;>
  · constructor
    · simp only [checkExpr, checkArithmeticBinaryOperator, checkChildrenForBinaryOperator,
        checkNullValue_nil, checkIntegerValue_nil _ _ _ _ _ safeDecimalRange_zero]
      simp [validateNumberType, inferBinaryOperatorType, extractNumberValue,
        delegateTypeAction, verifyTypeAction, ExprNode.getType, ExprNode.isValuer,
        ExprNode.info, hnp, h]
    · simp only [checkExpr, checkArithmeticBinaryOperator, checkChildrenForBinaryOperator,
        checkNullValue_nil, checkIntegerValue_nil _ _ _ _ _ safeDecimalRange_zero]
      simp [validateNumberType, inferBinaryOperatorType, extractNumberValue,
        delegateTypeAction, verifyTypeAction, ExprNode.getType, ExprNode.isValuer,
        ExprNode.info, hnp, h]

/-- Witness for claim C10 at `NULL / 0` and `0 / NULL`, both typed
`int256`. -/
theorem claimC10_nullOperandShortCircuitsZeroDivisorCheck_witness :
    ((⟨DataTypeMajorInt, 31⟩ : DataType).major = DataTypeMajorInt ∨
     (⟨DataTypeMajorInt, 31⟩ : DataType).major = DataTypeMajorUint ∨
     isFixedRange (⟨DataTypeMajorInt, 31⟩ : DataType).major ∨
     isUfixedRange (⟨DataTypeMajorInt, 31⟩ : DataType).major) ∧
    (checkExpr 3 ⟨false, false⟩
      (.binOpV ⟨10, 8, "nul/0"⟩ DataTypePending .opDiv
        (.nullV ⟨10, 4, "nul"⟩ ⟨DataTypeMajorInt, 31⟩)
        (.integerV ⟨17, 1, "0"⟩ ⟨DataTypeMajorInt, 31⟩ false 0)) none
      = (some (.nullV ⟨10, 8, "nul/0"⟩ ⟨DataTypeMajorInt, 31⟩), []))
    ∧ (checkExpr 3 ⟨false, false⟩
      (.binOpV ⟨10, 8, "nul/0"⟩ DataTypePending .opDiv
        (.integerV ⟨10, 4, "nul"⟩ ⟨DataTypeMajorInt, 31⟩ false 0)
        (.nullV ⟨17, 1, "0"⟩ ⟨DataTypeMajorInt, 31⟩)) none
      = (some (.nullV ⟨10, 8, "nul/0"⟩ ⟨DataTypeMajorInt, 31⟩), [])) :=
  ⟨Or.inl rfl,
   (claimC10_nullOperandShortCircuitsZeroDivisorCheck 0 ⟨DataTypeMajorInt, 31⟩
      (Or.inl rfl) .opDiv (Or.inl rfl) ⟨10, 8, "nul/0"⟩ ⟨10, 4, "nul"⟩ ⟨17, 1, "0"⟩).1,
   (claimC10_nullOperandShortCircuitsZeroDivisorCheck 0 ⟨DataTypeMajorInt, 31⟩
      (Or.inl rfl) .opDiv (Or.inl rfl) ⟨10, 8, "nul/0"⟩ ⟨10, 4, "nul"⟩ ⟨17, 1, "0"⟩).2⟩

end Checker
